import Mathlib

/-!
Verification of the multi-client primary-lease coordinator implemented in
`src/packages/firestore/src/local/indexeddb_persistence.ts`.

The coordinator's persistent data (the `primaryClient` and `clientMetadata`
object stores), its side channel (LocalStorage zombie markers) and its
in-memory per-instance fields are embedded as plain Lean structures, and the
methods of `IndexedDbPersistence` that the claims are about are translated as
pure functions.  Wall-clock reads (`Date.now()`) become explicit `now : Int`
parameters; each distinct call site of `Date.now()` inside one operation gets
its own parameter.  Fallible operations (TypeScript `throw` inside a
`PersistencePromise` chain) return `Except Err _`, and a failed IndexedDB
transaction leaves the store unchanged (writes are only visible on commit).
-/

namespace FirebaseInteractie

/-- Client identifiers are opaque strings (`ClientId` in the source). -/
abbrev ClientId := String

/-- The error outcomes relevant to the coordinator, corresponding to the
`FirestoreError` codes and messages thrown in `indexeddb_persistence.ts`:
`primaryLeaseLost` is `FAILED_PRECONDITION` with `PRIMARY_LEASE_LOST_ERROR_MSG`,
`primaryLeaseExclusive` is `FAILED_PRECONDITION` with
`PRIMARY_LEASE_EXCLUSIVE_ERROR_MSG`, `unimplemented` is the
`UNSUPPORTED_PLATFORM_ERROR_MSG` rejection in `start()`, `assertionFailure`
models a failed `assert(...)`, and `storeTransient` stands for an error
surfaced by the underlying IndexedDB layer. -/
inductive Err where
  | primaryLeaseLost
  | primaryLeaseExclusive
  | unimplemented
  | assertionFailure (msg : String)
  | storeTransient
deriving DecidableEq, Repr

/-- The singleton `DbPrimaryClient` record (object store `primaryClient`). -/
structure DbPrimaryClient where
  ownerId : ClientId
  allowTabSynchronization : Bool
  leaseTimestampMs : Int
deriving DecidableEq, Repr

/-- A `DbClientMetadata` record (object store `clientMetadata`, keyed by
`clientId`).  `lastProcessedDocumentChangeId` may be unset, which the source
defends against with `|| 0`. -/
structure DbClientMetadata where
  clientId : ClientId
  updateTimeMs : Int
  networkEnabled : Bool
  inForeground : Bool
  lastProcessedDocumentChangeId : Option Nat
deriving DecidableEq, Repr

/-- The coordinator-visible contents of the IndexedDB database: the singleton
`primaryClient` record and the list of `clientMetadata` records. -/
structure Store where
  primaryClient : Option DbPrimaryClient
  clientMetadata : List DbClientMetadata
deriving DecidableEq, Repr

/-- The LocalStorage side channel, read through `isClientZombied`: for each
client id, whether a zombie entry for it is present.  The source's coercion of
a `null` read (LocalStorage unavailable) to "not zombied" is part of this
function's value. -/
abbrev SideChannel := ClientId → Bool

/-- The in-memory per-instance fields of `IndexedDbPersistence` used by the
lease state machine.  `notifications` records the values passed to
`primaryStateListener` invocations enqueued on the async queue, in order. -/
structure LocalState where
  clientId : ClientId
  networkEnabled : Bool
  inForeground : Bool
  isPrimary : Bool
  allowTabSynchronization : Bool
  started : Bool
  persistenceError : Option Err
  notifications : List Bool
  lastProcessedDocumentChangeId : Option Nat
deriving DecidableEq, Repr

/-- `CLIENT_METADATA_MAX_AGE_MS` (source line 59). -/
def CLIENT_METADATA_MAX_AGE_MS : Int := 5000

/-- `CLIENT_STATE_GARBAGE_COLLECTION_THRESHOLD_MS` (source line 67). -/
def CLIENT_STATE_GARBAGE_COLLECTION_THRESHOLD_MS : Int := 30 * 60 * 1000

/-- `CLIENT_METADATA_REFRESH_INTERVAL_MS` (source line 77). -/
def CLIENT_METADATA_REFRESH_INTERVAL_MS : Int := 4000

/-- `isWithinAge(updateTimeMs, maxAgeMs)`: true when
`now - maxAgeMs <= updateTimeMs <= now`; a future-dated time is rejected (and
logged by the source). -/
def isWithinAge (now updateTimeMs maxAgeMs : Int) : Bool :=
  let minAcceptable := now - maxAgeMs
  let maxAcceptable := now
  if updateTimeMs < minAcceptable then
    false
  else if updateTimeMs > maxAcceptable then
    false
  else
    true

/-- `isClientZombied(clientId)`: reads the side channel.  The source's `null`
returns (LocalStorage missing or failing) are already folded into the
`SideChannel` value as `false`, matching how every caller treats the result
(`!isClientZombied(...)` is `true` for `null`). -/
def isClientZombied (sideChannel : SideChannel) (clientId : ClientId) : Bool :=
  sideChannel clientId

/-- `isLocalClient(client)`: `client ? client.ownerId === this.clientId : false`. -/
def isLocalClient (loc : LocalState) : Option DbPrimaryClient → Bool
  | some client => client.ownerId == loc.clientId
  | none => false

/-- The `currentLeaseIsValid` computation shared by `canActAsPrimary`
(source lines 453-459) and `verifyAllowTabSynchronization` (lines 704-710):
the record exists, its timestamp is within `CLIENT_METADATA_MAX_AGE_MS`, and
its owner is not zombied. -/
def currentLeaseIsValid (now : Int) (sideChannel : SideChannel) :
    Option DbPrimaryClient → Bool
  | none => false
  | some currentPrimary =>
    isWithinAge now currentPrimary.leaseTimestampMs CLIENT_METADATA_MAX_AGE_MS &&
      !(isClientZombied sideChannel currentPrimary.ownerId)

/-- Field access `currentPrimary.allowTabSynchronization` on the (necessarily
present, since the lease was found valid) primary record; the `none` branch is
unreachable at every use site because `currentLeaseIsValid none = false`. -/
def primaryAllowsTabSynchronization : Option DbPrimaryClient → Bool
  | some currentPrimary => currentPrimary.allowTabSynchronization
  | none => true

/-- `filterActiveClients(clients, activityThresholdMs)`: clients whose
`updateTimeMs` is within the threshold and which are not zombied. -/
def filterActiveClients (now : Int) (sideChannel : SideChannel)
    (clients : List DbClientMetadata) (activityThresholdMs : Int) :
    List DbClientMetadata :=
  clients.filter fun client =>
    isWithinAge now client.updateTimeMs activityThresholdMs &&
      !(isClientZombied sideChannel client.clientId)

/-- The tail of `canActAsPrimary` (source lines 498-529), reached when no
valid-lease branch returned: the local foreground/network check followed by
the scan of all client metadata for a preferred candidate. -/
def canActAsPrimaryTail (loc : LocalState) (now : Int)
    (sideChannel : SideChannel) (st : Store) : Bool :=
  if loc.networkEnabled && loc.inForeground then
    true
  else
    let preferredCandidate :=
      (filterActiveClients now sideChannel st.clientMetadata
          CLIENT_METADATA_MAX_AGE_MS).find? fun otherClient =>
        if loc.clientId != otherClient.clientId then
          let otherClientHasBetterNetworkState :=
            !loc.networkEnabled && otherClient.networkEnabled
          let otherClientHasBetterVisibility :=
            !loc.inForeground && otherClient.inForeground
          let otherClientHasSameNetworkState :=
            loc.networkEnabled == otherClient.networkEnabled
          otherClientHasBetterNetworkState ||
            (otherClientHasBetterVisibility && otherClientHasSameNetworkState)
        else
          false
    preferredCandidate.isNone

/-- `canActAsPrimary(txn)` (source lines 446-542).  Reads the primary record;
if the lease is valid and held locally with the network enabled, succeeds with
`true`; if valid and held remotely, throws `primaryLeaseExclusive` when the
holder did not opt into tab synchronization and otherwise yields `false`; in
the remaining cases (no valid lease, or a valid local lease with the network
disabled) control falls through to `canActAsPrimaryTail`.  The trailing
`.next` of the source only logs and returns the value unchanged. -/
def canActAsPrimary (loc : LocalState) (now : Int) (sideChannel : SideChannel)
    (st : Store) : Except Err Bool :=
  let currentPrimary := st.primaryClient
  if currentLeaseIsValid now sideChannel currentPrimary then
    if isLocalClient loc currentPrimary && loc.networkEnabled then
      Except.ok true
    else if !(isLocalClient loc currentPrimary) then
      if !(primaryAllowsTabSynchronization currentPrimary) then
        Except.error Err.primaryLeaseExclusive
      else
        Except.ok false
    else
      Except.ok (canActAsPrimaryTail loc now sideChannel st)
  else
    Except.ok (canActAsPrimaryTail loc now sideChannel st)

/-- `verifyAllowTabSynchronization(txn)` (source lines 699-721): throws
`primaryLeaseExclusive` when a valid lease is held by a remote client that did
not opt into tab synchronization. -/
def verifyAllowTabSynchronization (loc : LocalState) (now : Int)
    (sideChannel : SideChannel) (st : Store) : Except Err Unit :=
  let currentPrimary := st.primaryClient
  if currentLeaseIsValid now sideChannel currentPrimary &&
      !(isLocalClient loc currentPrimary) then
    if !(primaryAllowsTabSynchronization currentPrimary) then
      Except.error Err.primaryLeaseExclusive
    else
      Except.ok ()
  else
    Except.ok ()

/-- `acquireOrExtendPrimaryLease(txn)` (source lines 727-734): unconditionally
writes a fresh `DbPrimaryClient(this.clientId, this.allowTabSynchronization,
Date.now())`; `now` is the `Date.now()` sampled at this call. -/
def acquireOrExtendPrimaryLease (loc : LocalState) (now : Int) (st : Store) :
    Store :=
  let newPrimary : DbPrimaryClient :=
    ⟨loc.clientId, loc.allowTabSynchronization, now⟩
  { st with primaryClient := some newPrimary }

/-- `releasePrimaryLeaseIfHeld(txn)` (source lines 761-775): clears the local
`isPrimary` bit, then deletes the primary record only when it is owned by the
local client. -/
def releasePrimaryLeaseIfHeld (loc : LocalState) (st : Store) :
    Store × LocalState :=
  let loc1 := { loc with isPrimary := false }
  if isLocalClient loc1 st.primaryClient then
    ({ st with primaryClient := none }, loc1)
  else
    (st, loc1)

/-- Upsert of a `DbClientMetadata` record (`metadataStore.put`); the object
store is keyed by `clientId`, so a put replaces the record with that key. -/
def clientMetadataPut (st : Store) (m : DbClientMetadata) : Store :=
  { st with clientMetadata :=
      (st.clientMetadata.filter fun c => c.clientId != m.clientId) ++ [m] }

/-- Deletion of a `DbClientMetadata` record by key (`metadataStore.delete`). -/
def clientMetadataDelete (st : Store) (id : ClientId) : Store :=
  { st with clientMetadata :=
      st.clientMetadata.filter fun c => c.clientId != id }

/-- `removeClientMetadata(txn)` (source lines 334-339): deletes the local
client's own metadata record. -/
def removeClientMetadata (clientId : ClientId) (st : Store) : Store :=
  clientMetadataDelete st clientId

/-- `runTransaction(action, requirePrimaryLease, transactionOperation)`
(source lines 633-691).  `nowCheck` is the `Date.now()` visible to the
initial `canActAsPrimary` / `verifyAllowTabSynchronization` check, and
`nowCommit` the one sampled by `acquireOrExtendPrimaryLease` after the
operation body has completed.  The body is a pure store transformer that may
fail; a failure anywhere aborts the IndexedDB transaction, so the returned
store is the input store on every error path.  The in-memory mutations of the
lease-lost branch (`this.isPrimary = false` plus the enqueued
`primaryStateListener(false)` call) survive the abort because they are not
transactional. -/
def runTransaction {α : Type} (loc : LocalState) (nowCheck nowCommit : Int)
    (sideChannel : SideChannel) (requirePrimaryLease : Bool)
    (transactionOperation : Store → Except Err (α × Store)) (st : Store) :
    Except Err α × Store × LocalState :=
  match loc.persistenceError with
  | some err => (Except.error err, st, loc)
  | none =>
    if requirePrimaryLease then
      match canActAsPrimary loc nowCheck sideChannel st with
      | Except.error e => (Except.error e, st, loc)
      | Except.ok false =>
        (Except.error Err.primaryLeaseLost, st,
          { loc with
              isPrimary := false,
              notifications := loc.notifications ++ [false] })
      | Except.ok true =>
        match transactionOperation st with
        | Except.error e => (Except.error e, st, loc)
        | Except.ok (result, st1) =>
          (Except.ok result, acquireOrExtendPrimaryLease loc nowCommit st1, loc)
    else
      match verifyAllowTabSynchronization loc nowCheck sideChannel st with
      | Except.error e => (Except.error e, st, loc)
      | Except.ok _ =>
        match transactionOperation st with
        | Except.error e => (Except.error e, st, loc)
        | Except.ok (result, st1) => (Except.ok result, st1, loc)

/-- `updateClientMetadataAndTryBecomePrimary()` (source lines 297-332): one
read-write transaction that upserts the local client's metadata with the
current heartbeat fields, evaluates `canActAsPrimary`, enqueues a listener
notification when the local primary bit flips, and then either releases the
lease (primary became non-primary) or acquires/extends it (primary).  An
error thrown by `canActAsPrimary` aborts the transaction, so the caller's
store is unchanged in that case. -/
def updateClientMetadataAndTryBecomePrimary (loc : LocalState) (now : Int)
    (sideChannel : SideChannel) (st : Store) :
    Except Err (Store × LocalState) :=
  let st1 := clientMetadataPut st
    ⟨loc.clientId, now, loc.networkEnabled, loc.inForeground,
      loc.lastProcessedDocumentChangeId⟩
  match canActAsPrimary loc now sideChannel st1 with
  | Except.error e => Except.error e
  | Except.ok can =>
    let wasPrimary := loc.isPrimary
    let loc1 := { loc with isPrimary := can }
    let loc2 :=
      if wasPrimary != can then
        { loc1 with notifications := loc1.notifications ++ [can] }
      else
        loc1
    if wasPrimary && !can then
      Except.ok (releasePrimaryLeaseIfHeld loc2 st1)
    else if can then
      Except.ok (acquireOrExtendPrimaryLease loc2 now st1, loc2)
    else
      Except.ok (st1, loc2)

/-- `client.lastProcessedDocumentChangeId || 0` (source line 394): the change
log cursor of a client, with an unset cursor read as `0`. -/
def clientCursor (client : DbClientMetadata) : Nat :=
  client.lastProcessedDocumentChangeId.getD 0

/-- `Math.min(...values)` over a spread list; `none` for the empty spread,
which the garbage collector never produces (it guards on `length > 0`). -/
def listMin : List Nat → Option Nat
  | [] => none
  | x :: xs => some (xs.foldl Nat.min x)

/-- The effects of one garbage-collection pass: the store after deleting the
inactive metadata records, the change id handed to the document-change-log
collaborator via `removeDocumentChangesThroughChangeId` (`none` when
truncation was skipped), and the LocalStorage zombie entries removed after
the transaction commits. -/
structure GcEffects where
  store : Store
  truncateThrough : Option Nat
  zombieEntriesRemoved : List ClientId
deriving DecidableEq, Repr

/-- The transaction body plus post-commit cleanup of
`maybeGarbageCollectMultiClientState()` (source lines 356-414): load all
metadata, split into active (30-minute threshold, non-zombied) and inactive,
delete the inactive records, and — with the local client excluded from the
active set — truncate the document change log through the minimum cursor of
the remaining active clients, skipping truncation when none remain. -/
def maybeGarbageCollectBody (loc : LocalState) (now : Int)
    (sideChannel : SideChannel) (st : Store) : GcEffects :=
  let existingClients := st.clientMetadata
  let activeClients := filterActiveClients now sideChannel existingClients
      CLIENT_STATE_GARBAGE_COLLECTION_THRESHOLD_MS
  let inactiveClients := existingClients.filter fun client =>
    !(activeClients.contains client)
  let st1 := inactiveClients.foldl
    (fun s inactiveClient => clientMetadataDelete s inactiveClient.clientId) st
  let activePeers := activeClients.filter fun client =>
    client.clientId != loc.clientId
  let oldestChangeId :=
    if activePeers.length > 0 then
      listMin (activePeers.map clientCursor)
    else
      none
  { store := st1, truncateThrough := oldestChangeId,
    zombieEntriesRemoved := inactiveClients.map (·.clientId) }

/-- The guard of `maybeGarbageCollectMultiClientState()` (source lines
346-355): the pass runs only when the local client is primary and the last
garbage collection lies outside the 30-minute window; `none` means skipped. -/
def maybeGarbageCollectMultiClientState (loc : LocalState)
    (lastGarbageCollectionTime now : Int) (sideChannel : SideChannel)
    (st : Store) : Option GcEffects :=
  if loc.isPrimary &&
      !(isWithinAge now lastGarbageCollectionTime
          CLIENT_STATE_GARBAGE_COLLECTION_THRESHOLD_MS) then
    some (maybeGarbageCollectBody loc now sideChannel st)
  else
    none

/-- One execution of the recurring refresher task created by
`scheduleClientMetadataAndPrimaryLeaseRefreshes` (source lines 422-432),
abstracted over the outcomes of its two steps.  The task body is the promise
chain `updateClientMetadataAndTryBecomePrimary()` then
`maybeGarbageCollectMultiClientState()` then
`scheduleClientMetadataAndPrimaryLeaseRefreshes()` with no rejection handler
anywhere, so a rejection in either step skips every later `.then` callback.
The result is `ok true` when the task reached the rescheduling step, and the
propagated rejection otherwise. -/
def refresherTaskReschedules (updateStep gcStep : Except Err Unit) :
    Except Err Bool :=
  match updateStep with
  | Except.error e => Except.error e
  | Except.ok _ =>
    match gcStep with
    | Except.error e => Except.error e
    | Except.ok _ => Except.ok true

/-- The scoped per-instance resources of `IndexedDbPersistence`: the open
database handle, whether the underlying database was deleted, the document
visibility and window unload listeners, and the metadata refresher timer. -/
structure Resources where
  dbOpen : Bool
  dbDeleted : Bool
  visibilityHandlerAttached : Bool
  unloadHandlerAttached : Bool
  refresherScheduled : Bool
deriving DecidableEq, Repr

/-- Everything one coordinator instance can observe and mutate: its in-memory
fields, its scoped resources, the shared IndexedDB contents and the
LocalStorage side channel. -/
structure SysState where
  loc : LocalState
  res : Resources
  store : Store
  sideChannel : SideChannel

/-- `markClientZombied()` (source lines 906-917): synchronously writes the
zombie entry for the given client id. -/
def markClientZombied (clientId : ClientId) (sideChannel : SideChannel) :
    SideChannel :=
  fun id => if id == clientId then true else sideChannel id

/-- `removeClientZombiedEntry()` (source lines 920-928): removes the zombie
entry for the given client id if present. -/
def removeClientZombiedEntry (clientId : ClientId) (sideChannel : SideChannel) :
    SideChannel :=
  fun id => if id == clientId then false else sideChannel id

/-- `shutdown(deleteData?)` (source lines 544-572): clear `started`, mark the
client zombied, cancel the refresher, detach both handlers, release the lease
if held and delete the own metadata record in one transaction, close the
database, remove the own zombie entry, and finally delete the database when
requested.  The store-adapter operations are modelled as total, following the
source's own statement that the shutdown operations are idempotent and may
run even after an aborted `start()` (the adapter, `SimpleDb`, is outside this
repository slice). -/
def shutdown (deleteData : Bool) (s : SysState) : SysState :=
  let loc1 := { s.loc with started := false }
  let sc1 := markClientZombied loc1.clientId s.sideChannel
  let res1 := { s.res with
      refresherScheduled := false,
      visibilityHandlerAttached := false,
      unloadHandlerAttached := false }
  let rel := releasePrimaryLeaseIfHeld loc1 s.store
  let st1 := removeClientMetadata (rel.2).clientId rel.1
  let res2 := { res1 with dbOpen := false }
  let sc2 := removeClientZombiedEntry (rel.2).clientId sc1
  if deleteData then
    { loc := rel.2, res := { res2 with dbDeleted := true },
      store := ⟨none, []⟩, sideChannel := sc2 }
  else
    { loc := rel.2, res := res2, store := st1, sideChannel := sc2 }

/-- `start()` (source lines 232-263): reject (latching `persistenceError`)
when the platform lacks IndexedDB support; assert against double starts; then
open the database, attach the visibility handler (initializing `inForeground`
from the document's visibility) and the unload hook, run the first
`updateClientMetadataAndTryBecomePrimary`, schedule the refresher, and mark
the instance started.  An error from the first heartbeat aborts `start`
before `_started` is set, keeping the mutations made up to that point.  The
`startRemoteDocumentCache` step touches only collaborator state and has no
footprint in this model. -/
def start (available docVisible : Bool) (now : Int) (s : SysState) :
    Except Err Unit × SysState :=
  if !available then
    (Except.error Err.unimplemented,
      { s with loc := { s.loc with persistenceError := some Err.unimplemented } })
  else if s.loc.started then
    (Except.error (Err.assertionFailure "IndexedDbPersistence double-started!"), s)
  else
    let res1 := { s.res with dbOpen := true }
    let loc1 := { s.loc with inForeground := docVisible }
    let res2 := { res1 with
        visibilityHandlerAttached := true,
        unloadHandlerAttached := true }
    match updateClientMetadataAndTryBecomePrimary loc1 now s.sideChannel s.store with
    | Except.error e =>
      (Except.error e, { s with loc := loc1, res := res2 })
    | Except.ok (st1, loc2) =>
      (Except.ok (),
        { loc := { loc2 with started := true },
          res := { res2 with refresherScheduled := true },
          store := st1, sideChannel := s.sideChannel })

end FirebaseInteractie

namespace FirebaseInteractie

/-- The age check of the source: `isWithinAge now t m` holds exactly when `t`
lies in the closed window from `now - m` to `now`. -/
theorem isWithinAge_iff (now t m : Int) :
    isWithinAge now t m = true ↔ now - m ≤ t ∧ t ≤ now := by
  simp only [isWithinAge]
  split
  next h =>
    simp only [Bool.false_eq_true, false_iff]
    rintro ⟨h1, h2⟩
    omega
  next h =>
    split
    next h2 =>
      simp only [Bool.false_eq_true, false_iff]
      rintro ⟨h3, h4⟩
      omega
    next h2 =>
      constructor
      · intro _
        omega
      · intro _
        rfl

/-- Claim C3: the stored lease is considered valid exactly when the record
exists, its `leaseTimestampMs` lies within 5000 ms before `now` and not after
`now`, and its owner is not marked zombied in the side channel. -/
theorem lease_validity_characterization (now : Int) (sideChannel : SideChannel)
    (p : Option DbPrimaryClient) :
    currentLeaseIsValid now sideChannel p = true ↔
      ∃ rec, p = some rec ∧
        now - 5000 ≤ rec.leaseTimestampMs ∧
        rec.leaseTimestampMs ≤ now ∧
        sideChannel rec.ownerId = false := by
  cases p with
  | none =>
    simp [currentLeaseIsValid]
  | some rec =>
    simp only [currentLeaseIsValid, isClientZombied,
      CLIENT_METADATA_MAX_AGE_MS, isWithinAge_iff, Bool.and_eq_true,
      Bool.not_eq_true', Option.some.injEq]
    constructor
    · rintro ⟨⟨h1, h2⟩, hz⟩
      exact ⟨rec, rfl, h1, h2, hz⟩
    · rintro ⟨rec', hrec, h1, h2, hz⟩
      cases hrec
      exact ⟨⟨h1, h2⟩, hz⟩

/-- Witness for C3 at a concrete record: the lease
`(ownerId A, allowTabSynchronization true, leaseTimestampMs 9800)` at
`now = 10000` with an empty side channel is valid. -/
theorem lease_validity_characterization_witness :
    currentLeaseIsValid 10000 (fun _ => false)
        (some ⟨"A", true, 9800⟩) = true :=
  (lease_validity_characterization 10000 (fun _ => false)
      (some ⟨"A", true, 9800⟩)).mpr
    ⟨⟨"A", true, 9800⟩, rfl, by decide, by decide, rfl⟩

/-- Counterexample to claim C1 as stated: with the stored lease
`(ownerId clientA, allowTabSynchronization true, leaseTimestampMs 100)` valid
at `now = 100` and owned by the local client `clientA`, whose
`networkEnabled` flag is `false`, `canActAsPrimary` still returns `true`
(the only metadata record is the local client's own, so the peer scan finds
no preferred candidate), contradicting "it returns false whenever
network_enabled is false". -/
theorem canActAsPrimary_network_disabled_counterexample :
    currentLeaseIsValid 100 (fun _ => false)
        (some ⟨"clientA", true, 100⟩) = true ∧
    isLocalClient ⟨"clientA", false, false, false, true, true, none, [], none⟩
        (some ⟨"clientA", true, 100⟩) = true ∧
    LocalState.networkEnabled
        ⟨"clientA", false, false, false, true, true, none, [], none⟩ = false ∧
    canActAsPrimary ⟨"clientA", false, false, false, true, true, none, [], none⟩
        100 (fun _ => false)
        ⟨some ⟨"clientA", true, 100⟩, [⟨"clientA", 100, false, false, none⟩]⟩ =
      Except.ok true :=
  ⟨rfl, rfl, rfl, rfl⟩

/-- Claim C1 (amended): when the stored lease is valid and owned by the local
client, `canActAsPrimary` returns `true` if `networkEnabled` is `true`; when
`networkEnabled` is `false` it does not return `false` outright but falls
through to the general eligibility check (foreground test and peer scan), and
so may still return `true`. -/
theorem canActAsPrimary_valid_local (loc : LocalState) (now : Int)
    (sideChannel : SideChannel) (st : Store)
    (hvalid : currentLeaseIsValid now sideChannel st.primaryClient = true)
    (hlocal : isLocalClient loc st.primaryClient = true) :
    canActAsPrimary loc now sideChannel st =
      (if loc.networkEnabled then Except.ok true
       else Except.ok (canActAsPrimaryTail loc now sideChannel st)) := by
  cases hn : loc.networkEnabled <;>
    simp [canActAsPrimary, hvalid, hlocal, hn]

/-- Witness for the amended C1 at the counterexample input: the hypotheses
hold there and the fall-through evaluates to the peer-scan result. -/
theorem canActAsPrimary_valid_local_witness :
    currentLeaseIsValid 100 (fun _ => false)
        (some ⟨"clientA", true, 100⟩) = true ∧
    canActAsPrimary ⟨"clientA", false, false, false, true, true, none, [], none⟩
        100 (fun _ => false)
        ⟨some ⟨"clientA", true, 100⟩, [⟨"clientA", 100, false, false, none⟩]⟩ =
      (if (false : Bool) then Except.ok true
       else Except.ok (canActAsPrimaryTail
          ⟨"clientA", false, false, false, true, true, none, [], none⟩
          100 (fun _ => false)
          ⟨some ⟨"clientA", true, 100⟩,
            [⟨"clientA", 100, false, false, none⟩]⟩)) :=
  ⟨rfl, by exact canActAsPrimary_valid_local _ _ _ _ rfl rfl⟩

/-- Claim C8: `releasePrimaryLeaseIfHeld` clears the local `isPrimary` flag
unconditionally and leaves the rest of the local state alone; it deletes the
`DbPrimaryClient` record exactly when its owner is the local client, leaves it
in place otherwise (including when absent), and never touches the client
metadata store. -/
theorem releasePrimaryLeaseIfHeld_spec (loc : LocalState) (st : Store) :
    releasePrimaryLeaseIfHeld loc st =
      ({ primaryClient :=
            match st.primaryClient with
            | some p => if p.ownerId = loc.clientId then none else some p
            | none => none,
          clientMetadata := st.clientMetadata },
        { loc with isPrimary := false }) := by
  cases st with
  | mk pc md =>
    cases pc with
    | none =>
      simp [releasePrimaryLeaseIfHeld, isLocalClient]
    | some p =>
      by_cases ho : p.ownerId = loc.clientId <;>
        simp [releasePrimaryLeaseIfHeld, isLocalClient, ho]

/-- Claim C2: in a primary-required `runTransaction`, a `false` verdict from
`canActAsPrimary` clears the local `isPrimary` flag, enqueues a `false`
notification for the primary-state listener, fails with the
primary-lease-lost error and leaves the store untouched, all without running
the body (the outcome is the same for every body); a `true` verdict runs the
body and then rewrites the lease with the local owner, its
`allowTabSynchronization` flag and the `Date.now()` value `nowCommit` sampled
after the body completed. -/
theorem runTransaction_requirePrimary (α : Type) (loc : LocalState)
    (nowCheck nowCommit : Int) (sideChannel : SideChannel)
    (body : Store → Except Err (α × Store)) (st : Store)
    (hperr : loc.persistenceError = none) :
    (canActAsPrimary loc nowCheck sideChannel st = Except.ok false →
      runTransaction loc nowCheck nowCommit sideChannel true body st =
        (Except.error Err.primaryLeaseLost, st,
          { loc with
              isPrimary := false,
              notifications := loc.notifications ++ [false] })) ∧
    (∀ body2 : Store → Except Err (α × Store),
      canActAsPrimary loc nowCheck sideChannel st = Except.ok false →
      runTransaction loc nowCheck nowCommit sideChannel true body st =
        runTransaction loc nowCheck nowCommit sideChannel true body2 st) ∧
    (∀ result st1,
      canActAsPrimary loc nowCheck sideChannel st = Except.ok true →
      body st = Except.ok (result, st1) →
      runTransaction loc nowCheck nowCommit sideChannel true body st =
        (Except.ok result,
          { st1 with
              primaryClient := some ⟨loc.clientId, loc.allowTabSynchronization, nowCommit⟩ },
          loc)) := by
  refine ⟨?_, ?_, ?_⟩
  · intro hcan
    simp [runTransaction, hperr, hcan]
  · intro body2 hcan
    simp [runTransaction, hperr, hcan]
  · intro result st1 hcan hbody
    simp [runTransaction, hperr, hcan, hbody, acquireOrExtendPrimaryLease]

/-- Witness for C2: client `B` (network on, foreground) runs a
primary-required transaction while `A` holds a valid shared lease, so
`canActAsPrimary` yields `false`; the call fails with the lease-lost error,
leaves the store unchanged and records the `false` notification. -/
theorem runTransaction_requirePrimary_witness :
    canActAsPrimary ⟨"B", true, true, false, true, true, none, [], none⟩
        100 (fun _ => false) ⟨some ⟨"A", true, 100⟩, []⟩ = Except.ok false ∧
    runTransaction ⟨"B", true, true, false, true, true, none, [], none⟩
        100 101 (fun _ => false) true (fun st => Except.ok (7, st))
        ⟨some ⟨"A", true, 100⟩, []⟩ =
      (Except.error Err.primaryLeaseLost, ⟨some ⟨"A", true, 100⟩, []⟩,
        ⟨"B", true, true, false, true, true, none, [false], none⟩) :=
  ⟨rfl, by exact (runTransaction_requirePrimary Nat
      ⟨"B", true, true, false, true, true, none, [], none⟩ 100 101
      (fun _ => false) (fun st => Except.ok (7, st))
      ⟨some ⟨"A", true, 100⟩, []⟩ rfl).1 rfl⟩

/-- Claim C5: when a valid lease is held by a remote client that has
`allowTabSynchronization = false`, both `canActAsPrimary` and
`verifyAllowTabSynchronization` fail with the exclusive-lease error, and a
`runTransaction` in either mode propagates that error while leaving the
store (in particular the holder's record) and the local state unchanged. -/
theorem exclusive_lease_conflict (α : Type) (loc : LocalState)
    (nowCheck nowCommit : Int) (sideChannel : SideChannel) (st : Store)
    (p : DbPrimaryClient)
    (hp : st.primaryClient = some p)
    (hvalid : currentLeaseIsValid nowCheck sideChannel st.primaryClient = true)
    (hremote : p.ownerId ≠ loc.clientId)
    (hsync : p.allowTabSynchronization = false)
    (hperr : loc.persistenceError = none) :
    canActAsPrimary loc nowCheck sideChannel st =
        Except.error Err.primaryLeaseExclusive ∧
    verifyAllowTabSynchronization loc nowCheck sideChannel st =
        Except.error Err.primaryLeaseExclusive ∧
    ∀ body : Store → Except Err (α × Store),
      runTransaction loc nowCheck nowCommit sideChannel true body st =
        (Except.error Err.primaryLeaseExclusive, st, loc) ∧
      runTransaction loc nowCheck nowCommit sideChannel false body st =
        (Except.error Err.primaryLeaseExclusive, st, loc) := by
  have hvalid' : currentLeaseIsValid nowCheck sideChannel (some p) = true := by
    rw [← hp]
    exact hvalid
  have hlocal : isLocalClient loc (some p) = false := by
    simp only [isLocalClient]
    exact beq_eq_false_iff_ne.mpr hremote
  have hcan : canActAsPrimary loc nowCheck sideChannel st =
      Except.error Err.primaryLeaseExclusive := by
    simp [canActAsPrimary, hp, hvalid', hlocal,
      primaryAllowsTabSynchronization, hsync]
  have hver : verifyAllowTabSynchronization loc nowCheck sideChannel st =
      Except.error Err.primaryLeaseExclusive := by
    simp [verifyAllowTabSynchronization, hp, hvalid', hlocal,
      primaryAllowsTabSynchronization, hsync]
  refine ⟨hcan, hver, fun body => ⟨?_, ?_⟩⟩
  · simp [runTransaction, hperr, hcan]
  · simp [runTransaction, hperr, hver]

/-- Witness for C5: `A` holds a fresh exclusive lease
(`allowTabSynchronization = false`); client `B`'s eligibility check, its
synchronization check and both transaction modes all fail with the
exclusive-lease error and leave the stored record untouched. -/
theorem exclusive_lease_conflict_witness :
    canActAsPrimary ⟨"B", true, true, false, true, true, none, [], none⟩
        100 (fun _ => false) ⟨some ⟨"A", false, 100⟩, []⟩ =
      Except.error Err.primaryLeaseExclusive ∧
    verifyAllowTabSynchronization
        ⟨"B", true, true, false, true, true, none, [], none⟩
        100 (fun _ => false) ⟨some ⟨"A", false, 100⟩, []⟩ =
      Except.error Err.primaryLeaseExclusive ∧
    runTransaction ⟨"B", true, true, false, true, true, none, [], none⟩
        100 101 (fun _ => false) true (fun st => Except.ok (7, st))
        ⟨some ⟨"A", false, 100⟩, []⟩ =
      (Except.error Err.primaryLeaseExclusive, ⟨some ⟨"A", false, 100⟩, []⟩,
        ⟨"B", true, true, false, true, true, none, [], none⟩) ∧
    runTransaction ⟨"B", true, true, false, true, true, none, [], none⟩
        100 101 (fun _ => false) false (fun st => Except.ok (7, st))
        ⟨some ⟨"A", false, 100⟩, []⟩ =
      (Except.error Err.primaryLeaseExclusive, ⟨some ⟨"A", false, 100⟩, []⟩,
        ⟨"B", true, true, false, true, true, none, [], none⟩) := by
  have h := exclusive_lease_conflict Nat
      ⟨"B", true, true, false, true, true, none, [], none⟩ 100 101
      (fun _ => false) ⟨some ⟨"A", false, 100⟩, []⟩ ⟨"A", false, 100⟩
      rfl rfl (by decide) rfl rfl
  exact ⟨h.1, h.2.1, (h.2.2 (fun st => Except.ok (7, st))).1,
    (h.2.2 (fun st => Except.ok (7, st))).2⟩

/-- The boolean preference test applied to one metadata record inside the
peer scan of `canActAsPrimary`, characterized as a proposition: the record
belongs to a different client and is strictly better by network state, or
equally networked and strictly better by visibility. -/
theorem preferredOver_iff (loc : LocalState) (other : DbClientMetadata) :
    ((if loc.clientId != other.clientId then
        (!loc.networkEnabled && other.networkEnabled) ||
          ((!loc.inForeground && other.inForeground) &&
            (loc.networkEnabled == other.networkEnabled))
      else false) = true) ↔
      (loc.clientId ≠ other.clientId ∧
        ((other.networkEnabled = true ∧ loc.networkEnabled = false) ∨
         (other.inForeground = true ∧ loc.inForeground = false ∧
           other.networkEnabled = loc.networkEnabled))) := by
  by_cases hne : loc.clientId = other.clientId
  · simp [hne]
  · have hb : (loc.clientId != other.clientId) = true := bne_iff_ne.mpr hne
    simp only [hb, if_true]
    cases h1 : loc.networkEnabled <;> cases h2 : other.networkEnabled <;>
      cases h3 : loc.inForeground <;> cases h4 : other.inForeground <;>
        simp [hne]

/-- Claim C4: when no valid lease applies and the local client is not both
network-enabled and in the foreground, `canActAsPrimary` succeeds with `true`
exactly when no other active client (metadata within 5000 ms and not
zombied) is preferred over the local client: preferred means better network
state, or equal network state and better visibility; ties go to the local
client. -/
theorem canActAsPrimary_peer_scan (loc : LocalState) (now : Int)
    (sideChannel : SideChannel) (st : Store)
    (hvalid : currentLeaseIsValid now sideChannel st.primaryClient = false)
    (hnf : ¬(loc.networkEnabled = true ∧ loc.inForeground = true)) :
    canActAsPrimary loc now sideChannel st = Except.ok true ↔
      ∀ other ∈ st.clientMetadata,
        isWithinAge now other.updateTimeMs CLIENT_METADATA_MAX_AGE_MS = true →
        sideChannel other.clientId = false →
        loc.clientId ≠ other.clientId →
        ¬((other.networkEnabled = true ∧ loc.networkEnabled = false) ∨
          (other.inForeground = true ∧ loc.inForeground = false ∧
            other.networkEnabled = loc.networkEnabled)) := by
  have hnf' : (loc.networkEnabled && loc.inForeground) = false := by
    cases h1 : loc.networkEnabled <;> cases h2 : loc.inForeground <;> simp_all
  simp only [canActAsPrimary, hvalid, Bool.false_eq_true, if_false,
    canActAsPrimaryTail, hnf', Except.ok.injEq, Option.isNone_iff_eq_none,
    List.find?_eq_none, filterActiveClients, List.mem_filter, isClientZombied,
    Bool.and_eq_true, Bool.not_eq_true', preferredOver_iff]
  constructor
  · intro h other hmem hage hz hne hbad
    exact h other ⟨hmem, hage, hz⟩ ⟨hne, hbad⟩
  · intro h other hother hpref
    exact h other hother.1 hother.2.1 hother.2.2 hpref.1 hpref.2

/-- Witness for C4: client `A` (network off, background) with no stored lease
and two metadata records (its own and one for `B`, also network-off and
backgrounded) is eligible, and indeed no record satisfies the preference
predicate. -/
theorem canActAsPrimary_peer_scan_witness :
    (canActAsPrimary ⟨"A", false, false, false, true, true, none, [], none⟩
        100 (fun _ => false)
        ⟨none, [⟨"A", 100, false, false, none⟩, ⟨"B", 100, false, false, none⟩]⟩ =
      Except.ok true ↔
      ∀ other ∈ [(⟨"A", 100, false, false, none⟩ : DbClientMetadata),
          ⟨"B", 100, false, false, none⟩],
        isWithinAge 100 other.updateTimeMs CLIENT_METADATA_MAX_AGE_MS = true →
        (false : Bool) = false →
        ("A" : ClientId) ≠ other.clientId →
        ¬((other.networkEnabled = true ∧ (false : Bool) = false) ∨
          (other.inForeground = true ∧ (false : Bool) = false ∧
            other.networkEnabled = false))) := by
  exact canActAsPrimary_peer_scan _ _ _ _ rfl (by decide)

/-- Counterexample to claim C6 as stated: when the heartbeat/lease-update
step of the refresher task rejects, the error propagates (it is not caught)
and the task never reaches the rescheduling step. -/
theorem refresher_error_stops_rescheduling_counterexample :
    refresherTaskReschedules (Except.error Err.storeTransient)
        (Except.ok ()) = Except.error Err.storeTransient ∧
    refresherTaskReschedules (Except.error Err.storeTransient)
        (Except.ok ()) ≠ Except.ok true :=
  ⟨rfl, fun h => nomatch h⟩

/-- Claim C6 (amended): the refresher task reschedules itself exactly when
both the heartbeat/lease-update step and the garbage-collection step
complete without error; an error in either step propagates uncaught and the
rescheduling step is skipped. -/
theorem refresher_reschedules_iff (updateStep gcStep : Except Err Unit) :
    refresherTaskReschedules updateStep gcStep = Except.ok true ↔
      updateStep = Except.ok () ∧ gcStep = Except.ok () := by
  cases updateStep with
  | error e => simp [refresherTaskReschedules]
  | ok u =>
    cases u
    cases gcStep with
    | error e => simp [refresherTaskReschedules]
    | ok g =>
      cases g
      simp [refresherTaskReschedules]

/-- Witness for the amended C6: with both steps succeeding, the task
reschedules itself. -/
theorem refresher_reschedules_iff_witness :
    refresherTaskReschedules (Except.ok ()) (Except.ok ()) = Except.ok true ↔
      (Except.ok () : Except Err Unit) = Except.ok () ∧
        (Except.ok () : Except Err Unit) = Except.ok () :=
  refresher_reschedules_iff (Except.ok ()) (Except.ok ())

/-- The left fold of `Nat.min` never exceeds its seed or any list element
(the content of `Math.min` over a spread). -/
theorem foldl_min_le (xs : List Nat) : ∀ a : Nat,
    xs.foldl Nat.min a ≤ a ∧ ∀ x ∈ xs, xs.foldl Nat.min a ≤ x := by
  induction xs with
  | nil =>
    intro a
    exact ⟨Nat.le_refl a, by simp⟩
  | cons y ys ih =>
    intro a
    have h := ih (Nat.min a y)
    simp only [List.foldl_cons]
    refine ⟨Nat.le_trans h.1 (Nat.min_le_left a y), ?_⟩
    intro x hx
    rcases List.mem_cons.mp hx with hxy | hxys
    · subst hxy
      exact Nat.le_trans h.1 (Nat.min_le_right a x)
    · exact h.2 x hxys

/-- `listMin` returns a lower bound of its argument list. -/
theorem listMin_le (l : List Nat) (t : Nat) (h : listMin l = some t) :
    ∀ x ∈ l, t ≤ x := by
  cases l with
  | nil => cases h
  | cons y ys =>
    have ht : t = ys.foldl Nat.min y := by
      simpa [listMin] using h.symm
    subst ht
    intro x hx
    rcases List.mem_cons.mp hx with hxy | hxys
    · subst hxy
      exact (foldl_min_le ys x).1
    · exact (foldl_min_le ys y).2 x hxys

/-- Claim C7 (amended): the truncation point handed to the document-change-log
collaborator equals the minimum cursor over clients active at the start of
the pass (30-minute threshold, non-zombied) excluding the local client;
truncation is skipped when no such peer exists; and the truncation point
never exceeds the cursor of any such active client other than the local
client. -/
theorem gc_truncation_point (loc : LocalState) (now : Int)
    (sideChannel : SideChannel) (st : Store) :
    (maybeGarbageCollectBody loc now sideChannel st).truncateThrough =
      listMin (((filterActiveClients now sideChannel st.clientMetadata
          CLIENT_STATE_GARBAGE_COLLECTION_THRESHOLD_MS).filter fun client =>
            client.clientId != loc.clientId).map clientCursor) ∧
    (((filterActiveClients now sideChannel st.clientMetadata
          CLIENT_STATE_GARBAGE_COLLECTION_THRESHOLD_MS).filter fun client =>
            client.clientId != loc.clientId) = [] →
      (maybeGarbageCollectBody loc now sideChannel st).truncateThrough = none) ∧
    (∀ other ∈ filterActiveClients now sideChannel st.clientMetadata
        CLIENT_STATE_GARBAGE_COLLECTION_THRESHOLD_MS,
      other.clientId ≠ loc.clientId →
      ∀ t, (maybeGarbageCollectBody loc now sideChannel st).truncateThrough =
          some t →
        t ≤ clientCursor other) := by
  have hmain : (maybeGarbageCollectBody loc now sideChannel st).truncateThrough =
      listMin (((filterActiveClients now sideChannel st.clientMetadata
          CLIENT_STATE_GARBAGE_COLLECTION_THRESHOLD_MS).filter fun client =>
            client.clientId != loc.clientId).map clientCursor) := by
    simp only [maybeGarbageCollectBody]
    split
    next h => rfl
    next h =>
      have hlen : ((filterActiveClients now sideChannel st.clientMetadata
          CLIENT_STATE_GARBAGE_COLLECTION_THRESHOLD_MS).filter fun client =>
            client.clientId != loc.clientId).length = 0 := by
        omega
      rw [List.length_eq_zero.mp hlen]
      rfl
  refine ⟨hmain, ?_, ?_⟩
  · intro hnil
    rw [hmain, hnil]
    rfl
  · intro other hmem hne t ht
    rw [hmain] at ht
    refine listMin_le _ t ht (clientCursor other) ?_
    refine List.mem_map.mpr ⟨other, ?_, rfl⟩
    refine List.mem_filter.mpr ⟨hmem, ?_⟩
    exact bne_iff_ne.mpr hne

/-- Counterexample to the final consequence of claim C7 as stated: in a GC
pass run by primary client `A` (cursor 0) with one active peer `B`
(cursor 5), the truncation point is 5, which exceeds the cursor of client
`A` even though `A` is active at the start of GC — the "any client still
active" reading fails for the local client itself, which the source
deliberately excludes from the minimum. -/
theorem gc_truncation_point_counterexample :
    (maybeGarbageCollectBody ⟨"A", true, true, true, true, true, none, [], some 0⟩
        100 (fun _ => false)
        ⟨none, [⟨"A", 100, true, true, some 0⟩, ⟨"B", 100, true, true, some 5⟩]⟩
      ).truncateThrough = some 5 ∧
    (⟨"A", 100, true, true, some 0⟩ : DbClientMetadata) ∈
      filterActiveClients 100 (fun _ => false)
        [⟨"A", 100, true, true, some 0⟩, ⟨"B", 100, true, true, some 5⟩]
        CLIENT_STATE_GARBAGE_COLLECTION_THRESHOLD_MS ∧
    clientCursor ⟨"A", 100, true, true, some 0⟩ < 5 :=
  ⟨rfl, by decide, by decide⟩

/-- Witness for the amended C7 at the counterexample input: the truncation
point is 5 and it indeed does not exceed the cursor of the only active peer
`B`. -/
theorem gc_truncation_point_witness :
    (maybeGarbageCollectBody ⟨"A", true, true, true, true, true, none, [], some 0⟩
        100 (fun _ => false)
        ⟨none, [⟨"A", 100, true, true, some 0⟩, ⟨"B", 100, true, true, some 5⟩]⟩
      ).truncateThrough = some 5 ∧
    5 ≤ clientCursor ⟨"B", 100, true, true, some 5⟩ :=
  ⟨rfl,
    (gc_truncation_point ⟨"A", true, true, true, true, true, none, [], some 0⟩
        100 (fun _ => false)
        ⟨none, [⟨"A", 100, true, true, some 0⟩, ⟨"B", 100, true, true, some 5⟩]⟩
      ).2.2 ⟨"B", 100, true, true, some 5⟩ (by decide) (by decide) 5 rfl⟩

/-- Closed form of `shutdown`: `started` and `isPrimary` cleared, all scoped
resources released, the primary record deleted exactly when locally owned,
the own metadata record deleted (or the whole store wiped when data deletion
was requested), and the own zombie entry absent. -/
theorem shutdown_eq (deleteData : Bool) (s : SysState) :
    shutdown deleteData s =
      { loc := { s.loc with started := false, isPrimary := false },
        res := { dbOpen := false,
                 dbDeleted := deleteData || s.res.dbDeleted,
                 visibilityHandlerAttached := false,
                 unloadHandlerAttached := false,
                 refresherScheduled := false },
        store :=
          if deleteData then ⟨none, []⟩ else
            ⟨(match s.store.primaryClient with
              | some p => if p.ownerId = s.loc.clientId then none else some p
              | none => none),
             s.store.clientMetadata.filter fun c => c.clientId != s.loc.clientId⟩,
        sideChannel := fun id =>
          if id == s.loc.clientId then false else s.sideChannel id } := by
  obtain ⟨loc, res, store, sc⟩ := s
  obtain ⟨pc, md⟩ := store
  have hsc : removeClientZombiedEntry loc.clientId
      (markClientZombied loc.clientId sc) =
      fun id => if id == loc.clientId then false else sc id := by
    funext id
    cases h : id == loc.clientId <;>
      simp [markClientZombied, removeClientZombiedEntry, h]
  cases pc with
  | none =>
    cases deleteData <;>
      simp [shutdown, releasePrimaryLeaseIfHeld, isLocalClient,
        removeClientMetadata, clientMetadataDelete, hsc]
  | some p =>
    by_cases ho : p.ownerId = loc.clientId <;>
      cases deleteData <;>
        simp [shutdown, releasePrimaryLeaseIfHeld, isLocalClient,
          removeClientMetadata, clientMetadataDelete, hsc, ho]

/-- Claim C9: `shutdown` is idempotent — running it a second time (with the
same data-deletion request) leaves the local and persistent state exactly as
the first run left them. -/
theorem shutdown_idempotent (deleteData : Bool) (s : SysState) :
    shutdown deleteData (shutdown deleteData s) = shutdown deleteData s := by
  obtain ⟨loc, res, store, sc⟩ := s
  obtain ⟨pc, md⟩ := store
  simp only [shutdown_eq, SysState.mk.injEq]
  refine ⟨trivial, ?_, ?_, ?_⟩
  · cases deleteData <;> simp
  · cases deleteData with
    | true => simp
    | false =>
      simp only [Bool.false_eq_true, if_false, Store.mk.injEq]
      refine ⟨?_, ?_⟩
      · cases pc with
        | none => simp
        | some p =>
          by_cases ho : p.ownerId = loc.clientId <;> simp [ho]
      · simp [List.filter_filter]
  · funext id
    cases h : id == loc.clientId <;> simp [h]

/-- Claim C10: calling `start()` on an instance whose `started` flag is set
(on a platform where IndexedDB is available, as it was for the first start
to have succeeded) fails the `IndexedDbPersistence double-started!` assertion
and changes nothing — unlike `shutdown`, `start` is not idempotent. -/
theorem start_double_started (docVisible : Bool) (now : Int) (s : SysState)
    (hstarted : s.loc.started = true) :
    start true docVisible now s =
      (Except.error
          (Err.assertionFailure "IndexedDbPersistence double-started!"), s) := by
  simp [start, hstarted]

/-- Witness for C10 at a concrete started instance. -/
theorem start_double_started_witness :
    LocalState.started ⟨"A", true, true, false, true, true, none, [], none⟩ =
        true ∧
    start true true 0
        ⟨⟨"A", true, true, false, true, true, none, [], none⟩,
          ⟨true, false, true, true, true⟩, ⟨none, []⟩, fun _ => false⟩ =
      (Except.error
          (Err.assertionFailure "IndexedDbPersistence double-started!"),
        ⟨⟨"A", true, true, false, true, true, none, [], none⟩,
          ⟨true, false, true, true, true⟩, ⟨none, []⟩, fun _ => false⟩) :=
  ⟨rfl, by exact start_double_started true 0 _ rfl⟩

end FirebaseInteractie
